import Mathlib

/-!
Shallow embedding of the two pipeline blocks of the repository
(`data_loaders/load_api_green_taxi_data.py` and
`transformers/transformer_grean_taxi_data.py`) and proofs of the frozen
claims about them.

Modelling conventions:
* a pandas `DataFrame` is a rectangular table: a list of column names, a
  row-index label list, and rows (lists of cell values);
* float64 cells are modelled as exact rationals (only order comparisons
  with zero occur in this code, never rounding arithmetic);
* nullable-integer cells are `Value.int`, missing values are `Value.na`;
* a timestamp is a day number paired with a time-of-day; the `.dt.date`
  accessor projects out the day number;
* operations that raise in Python return `Except String`;
* the row filter expression on line 25 of the transformer,
  `data[(data['passenger_count'] >0) & (data['trip_distance']) >0]`,
  is embedded with Python's actual operator precedence: `&` binds tighter
  than `>`, so the mask is `((passenger_count > 0) & trip_distance) > 0`,
  and `&` on a float operand raises `TypeError` as pandas does.
-/

/-- Cell values of a pandas data frame: nullable Int64, float64 (as exact
rationals), text, timestamps (day serial plus time of day), calendar dates,
booleans (produced by comparisons), and the missing value. -/
inductive Value where
  | int : Int → Value
  | float : ℚ → Value
  | str : String → Value
  | datetime : Int → Nat → Value
  | date : Int → Value
  | bool : Bool → Value
  | na : Value
deriving DecidableEq

/-- A data frame: column names, row-index labels, and rows of cells.
Rows are aligned positionally with `cols`. -/
structure DataFrame where
  cols : List String
  idx : List Nat
  rows : List (List Value)
deriving DecidableEq

/-- A data frame is rectangular when every row has exactly one cell per
column (always true of frames pandas builds). -/
def DataFrame.Rect (df : DataFrame) : Prop :=
  ∀ r ∈ df.rows, r.length = df.cols.length

instance (df : DataFrame) : Decidable df.Rect :=
  List.decidableBAll _ df.rows

/-- ASCII lower-casing of one character, as `str.lower` does on the
ASCII column names this pipeline sees. -/
def lowerChar (c : Char) : Char :=
  if 65 ≤ c.toNat ∧ c.toNat ≤ 90 then Char.ofNat (c.toNat + 32) else c

/-- Left-to-right, non-overlapping replacement of the two-character
pattern `ID` by `_id`, as `str.replace('ID', '_id')` performs. -/
def replaceID : List Char → List Char
  | [] => []
  | [c] => [c]
  | c :: d :: rest =>
    if c = 'I' ∧ d = 'D' then '_' :: 'i' :: 'd' :: replaceID rest
    else c :: replaceID (d :: rest)

/-- Column-name normalization of transformer line 23:
`data.columns.str.replace('ID','_id').str.lower()`. -/
def normalizeName (s : String) : String :=
  String.mk ((replaceID s.data).map lowerChar)

/-- Position of the first column with the given name, if any. -/
def colIdx (name : String) : List String → Option Nat
  | [] => none
  | c :: cs => if c = name then some 0 else (colIdx name cs).map (· + 1)

/-- Column selection `data[name]`: the cell of every row at the column's
position, or a `KeyError` when the column is absent. -/
def getCol (df : DataFrame) (name : String) : Except String (List Value) :=
  match colIdx name df.cols with
  | some i => .ok (df.rows.map (fun r => r.getD i .na))
  | none => .error ("KeyError: " ++ name)

/-- Column assignment `data[name] = vals`: overwrite in place when the
column exists, otherwise append it as the last column. -/
def setCol (df : DataFrame) (name : String) (vals : List Value) : DataFrame :=
  match colIdx name df.cols with
  | some i =>
    { cols := df.cols, idx := df.idx,
      rows := List.zipWith (fun r v => r.set i v) df.rows vals }
  | none =>
    { cols := df.cols ++ [name], idx := df.idx,
      rows := List.zipWith (fun r v => r ++ [v]) df.rows vals }

/-- Renaming step of transformer line 23: every column name normalized,
rows and index untouched. -/
def renameCols (df : DataFrame) : DataFrame :=
  { cols := df.cols.map normalizeName, idx := df.idx, rows := df.rows }

/-- Elementwise `> 0` on a cell, as a pandas series comparison: numbers
compare, booleans compare as the integers 0 and 1, missing propagates,
anything else raises. -/
def gtZero : Value → Except String Value
  | .int n => .ok (.bool (decide (0 < n)))
  | .float q => .ok (.bool (decide (0 < q)))
  | .bool b => .ok (.bool b)
  | .na => .ok .na
  | _ => .error "TypeError: ordered comparison with 0 unsupported"

/-- Elementwise Python `&` on cells, as pandas evaluates it: defined on
booleans and integers (bitwise, a boolean counting as 0 or 1), raising
`TypeError` on float operands, missing propagating over the rest. -/
def pyAnd : Value → Value → Except String Value
  | .float _, _ => .error "TypeError: unsupported operand type for &: float"
  | _, .float _ => .error "TypeError: unsupported operand type for &: float"
  | .bool a, .bool b => .ok (.bool (a && b))
  | .bool a, .int n => .ok (.int (Int.land (if a then 1 else 0) n))
  | .int n, .bool a => .ok (.int (Int.land n (if a then 1 else 0)))
  | .int m, .int n => .ok (.int (Int.land m n))
  | .na, _ => .ok .na
  | _, .na => .ok .na
  | _, _ => .error "TypeError: unsupported operand type for &"

/-- Reading one mask cell for row selection `data[mask]`: it must be a
definite boolean. -/
def asBool : Value → Except String Bool
  | .bool b => .ok b
  | .na => .error "ValueError: cannot mask with an NA value"
  | _ => .error "ValueError: row mask must be boolean"

/-- The `.dt.date` accessor of transformer line 24 on one cell: the
calendar-date component of a timestamp, `NaT` staying missing, anything
else raising. -/
def dtDate : Value → Except String Value
  | .datetime d _ => .ok (.date d)
  | .na => .ok .na
  | _ => .error "AttributeError: .dt accessor needs datetime values"

/-- Error-propagating map over a list, the elementwise reading of a
whole-column pandas operation. -/
def mapE (f : α → Except String β) : List α → Except String (List β)
  | [] => .ok []
  | a :: as =>
    match f a with
    | .error e => .error e
    | .ok b =>
      match mapE f as with
      | .error e => .error e
      | .ok bs => .ok (b :: bs)

/-- One row's mask cell for the filter of transformer line 25, with
Python's parse `((passenger_count > 0) & trip_distance) > 0`. -/
def maskEntry (pcv tdv : Value) : Except String Bool :=
  match gtZero pcv with
  | .error e => .error e
  | .ok b =>
    match pyAnd b tdv with
    | .error e => .error e
    | .ok a =>
      match gtZero a with
      | .error e => .error e
      | .ok m => asBool m

/-- The whole boolean mask of the filter, from the `passenger_count` and
`trip_distance` columns. -/
def buildMask (pc td : List Value) : Except String (List Bool) :=
  mapE (fun p => maskEntry p.1 p.2) (pc.zip td)

/-- Row selection `data[mask]`: keep exactly the rows (and their index
labels) whose mask cell is true. -/
def filterRows (df : DataFrame) (mask : List Bool) : DataFrame :=
  { cols := df.cols,
    idx := (df.idx.zip mask).filterMap (fun p => if p.2 then some p.1 else none),
    rows := (df.rows.zip mask).filterMap (fun p => if p.2 then some p.1 else none) }

/-- The transformer block `transform` (lines 23–25 of
`transformer_grean_taxi_data.py`): normalize the column names, derive
`lpep_pickup_date` from `lpep_pickup_datetime`, then select rows with the
mask of line 25. -/
def transform (data : DataFrame) : Except String DataFrame :=
  match getCol (renameCols data) "lpep_pickup_datetime" with
  | .error e => .error e
  | .ok dts =>
    match mapE dtDate dts with
    | .error e => .error e
    | .ok dates =>
      match getCol (setCol (renameCols data) "lpep_pickup_date" dates) "passenger_count" with
      | .error e => .error e
      | .ok pc =>
        match getCol (setCol (renameCols data) "lpep_pickup_date" dates) "trip_distance" with
        | .error e => .error e
        | .ok td =>
          match buildMask pc td with
          | .error e => .error e
          | .ok mask => .ok (filterRows (setCol (renameCols data) "lpep_pickup_date" dates) mask)

/-- Derivation step of transformer line 24 in isolation:
`data['lpep_pickup_date'] = data['lpep_pickup_datetime'].dt.date`. -/
def stepAddDate (df : DataFrame) : Except String DataFrame :=
  match getCol df "lpep_pickup_datetime" with
  | .error e => .error e
  | .ok dts =>
    match mapE dtDate dts with
    | .error e => .error e
    | .ok dates => .ok (setCol df "lpep_pickup_date" dates)

/-- Filter step of transformer line 25 in isolation:
`data[(data['passenger_count'] >0) & (data['trip_distance']) >0]`. -/
def stepFilter (df : DataFrame) : Except String DataFrame :=
  match getCol df "passenger_count" with
  | .error e => .error e
  | .ok pc =>
    match getCol df "trip_distance" with
    | .error e => .error e
    | .ok td =>
      match buildMask pc td with
      | .error e => .error e
      | .ok mask => .ok (filterRows df mask)

/-- Declared column dtypes of the loader (`taxi_dtypes`, loader lines
20–36), abstracted to the three kinds used there. -/
inductive Dtype where
  | int64 : Dtype
  | float64 : Dtype
  | text : Dtype
deriving DecidableEq

/-- The `taxi_dtypes` mapping of the loader. -/
def taxi_dtypes : List (String × Dtype) :=
  [("VendorID", .int64), ("passenger_count", .int64), ("trip_distance", .float64),
   ("RatecodeID", .int64), ("store_and_fwd_flag", .text), ("PULocationID", .int64),
   ("DOLocationID", .int64), ("payment_type", .int64), ("fare_amount", .float64),
   ("extra", .float64), ("mta_tax", .float64), ("tip_amount", .float64),
   ("tolls_amount", .float64), ("improvement_surcharge", .float64),
   ("total_amount", .float64), ("congestion_surcharge", .float64)]

/-- The `parse_dates` list of the loader (line 37). -/
def parse_dates : List String :=
  ["lpep_pickup_datetime", "lpep_dropoff_datetime"]

/-- The hardcoded `url_list` of the loader (lines 15–18). -/
def url_list : List String :=
  ["https://github.com/DataTalksClub/nyc-tlc-data/releases/download/green/green_tripdata_2020-10.csv.gz",
   "https://github.com/DataTalksClub/nyc-tlc-data/releases/download/green/green_tripdata_2020-11.csv.gz",
   "https://github.com/DataTalksClub/nyc-tlc-data/releases/download/green/green_tripdata_2020-12.csv.gz"]

/-- The `pd.concat(df_list, axis=0, ignore_index=True)` of loader line 44
on same-schema frames (the three resources share `taxi_dtypes`): rows of
all frames in list order, the first frame's columns, and a fresh
contiguous zero-based index. -/
def concatIgnoreIndex (dfs : List DataFrame) : DataFrame :=
  { cols := ((dfs.head?).map DataFrame.cols).getD [],
    idx := List.range (dfs.foldr (fun d n => d.rows.length + n) 0),
    rows := dfs.foldr (fun d acc => d.rows ++ acc) [] }

/-- The loader block `load_data_from_api` (lines 11–44 of
`load_api_green_taxi_data.py`). `read_csv` abstracts
`pd.read_csv(url, sep=',', compression='gzip', dtype=..., parse_dates=...)`:
it turns one remote resource, under the declared dtype schema and
timestamp-column list, into a frame. The `*args, **kwargs` of the Python
signature are taken and, exactly as in the source body, never read. -/
def load_data_from_api (read_csv : String → List (String × Dtype) → List String → DataFrame)
    (args : List Value) (kwargs : List (String × Value)) : DataFrame :=
  concatIgnoreIndex (url_list.map (fun url => read_csv url taxi_dtypes parse_dates))

/-! Concrete record batches used by the witness and counterexample
theorems below. Timestamps use day serial numbers (e.g. 18536 ≈
2020-10-01). -/

/-- Batch standing in for the October resource in the C3 witness. -/
def wBatchA : DataFrame :=
  { cols := ["trip_distance"], idx := [0, 1], rows := [[.float 1], [.float 2]] }

/-- Batch standing in for the November resource in the C3 witness. -/
def wBatchB : DataFrame :=
  { cols := ["trip_distance"], idx := [0], rows := [[.float 3]] }

/-- Batch standing in for the December resource in the C3 witness. -/
def wBatchC : DataFrame :=
  { cols := ["trip_distance"], idx := [0, 1, 2],
    rows := [[.float 4], [.float 5], [.float 6]] }

/-- Concrete decode function for the C3 witness, mapping the three
declared URLs to the three batches above. -/
def wRead (url : String) (_ : List (String × Dtype)) (_ : List String) : DataFrame :=
  if url = url_list.getD 0 "" then wBatchA
  else if url = url_list.getD 1 "" then wBatchB
  else wBatchC

/-- Batch showing the C1 defect: its only row has `passenger_count = 3`
and `trip_distance = 1.2` (a float, as the loader's dtype declares), both
strictly positive, yet the filter expression raises. -/
def c1df : DataFrame :=
  { cols := ["lpep_pickup_datetime", "passenger_count", "trip_distance"],
    idx := [0],
    rows := [[.datetime 18536 0, .int 3, .float (6/5)]] }

/-- Input batch for the C2 witness: a `VendorID` column, one row passing
the filter and one failing it. -/
def c2df : DataFrame :=
  { cols := ["VendorID", "lpep_pickup_datetime", "passenger_count", "trip_distance"],
    idx := [0, 1],
    rows := [[.int 2, .datetime 18536 60, .int 1, .int 3],
             [.int 1, .datetime 18537 0, .int 0, .int 7]] }

/-- The transform's output on `c2df`. -/
def c2out : DataFrame :=
  { cols := ["vendor_id", "lpep_pickup_datetime", "passenger_count",
             "trip_distance", "lpep_pickup_date"],
    idx := [0],
    rows := [[.int 2, .datetime 18536 60, .int 1, .int 3, .date 18536]] }

/-- Rectangular input batch for the C4 witness; both rows survive the
filter. -/
def c4df : DataFrame :=
  { cols := ["lpep_pickup_datetime", "passenger_count", "trip_distance"],
    idx := [0, 1],
    rows := [[.datetime 18536 3600, .int 1, .int 3],
             [.datetime 18540 0, .int 2, .int 5]] }

/-- The transform's output on `c4df`. -/
def c4out : DataFrame :=
  { cols := ["lpep_pickup_datetime", "passenger_count", "trip_distance",
             "lpep_pickup_date"],
    idx := [0, 1],
    rows := [[.datetime 18536 3600, .int 1, .int 3, .date 18536],
             [.datetime 18540 0, .int 2, .int 5, .date 18540]] }

/-- Counterexample batch for C6: the input schema already contains a
`lpep_pickup_date` column. -/
def c6df : DataFrame :=
  { cols := ["lpep_pickup_datetime", "lpep_pickup_date", "passenger_count",
             "trip_distance"],
    idx := [0],
    rows := [[.datetime 18540 0, .date 18539, .int 1, .int 3]] }

/-- The transform's output on `c6df`: the stale date cell is overwritten
in place and no column is added. -/
def c6out : DataFrame :=
  { cols := ["lpep_pickup_datetime", "lpep_pickup_date", "passenger_count",
             "trip_distance"],
    idx := [0],
    rows := [[.datetime 18540 0, .date 18540, .int 1, .int 3]] }

/-- Input batch for the C6 witness, with no pre-existing
`lpep_pickup_date` column. -/
def c6wdf : DataFrame :=
  { cols := ["VendorID", "lpep_pickup_datetime", "passenger_count", "trip_distance"],
    idx := [0],
    rows := [[.int 1, .datetime 200 0, .int 1, .int 1]] }

/-- The transform's output on `c6wdf`. -/
def c6wout : DataFrame :=
  { cols := ["vendor_id", "lpep_pickup_datetime", "passenger_count",
             "trip_distance", "lpep_pickup_date"],
    idx := [0],
    rows := [[.int 1, .datetime 200 0, .int 1, .int 1, .date 200]] }

/-- Input batch for the C7 witness: one row kept, one dropped. -/
def c7df : DataFrame :=
  { cols := ["lpep_pickup_datetime", "passenger_count", "trip_distance"],
    idx := [0, 1],
    rows := [[.datetime 100 0, .int 2, .int 5], [.datetime 101 0, .int 1, .int 2]] }

/-- The transform's output on `c7df`. -/
def c7out : DataFrame :=
  { cols := ["lpep_pickup_datetime", "passenger_count", "trip_distance",
             "lpep_pickup_date"],
    idx := [0],
    rows := [[.datetime 100 0, .int 2, .int 5, .date 100]] }

/-- Batch showing the C8 defect: all three required columns are present
with well-typed cells (timestamps, integers, float distances), yet the
transform fails. -/
def c8df : DataFrame :=
  { cols := ["lpep_pickup_datetime", "passenger_count", "trip_distance"],
    idx := [0, 1],
    rows := [[.datetime 18600 0, .int 2, .float 5],
             [.datetime 18601 0, .int 1, .float 3]] }

/-! Helper lemmas about the embedded operations. -/

theorem charOfNat_toNat (n : Nat) (h : n ≤ 122) : (Char.ofNat n).toNat = n := by
  unfold Char.ofNat
  rw [dif_pos (Or.inl (by omega : n < 0xD800))]
  simp [Char.ofNatAux, Char.toNat, UInt32.toNat, BitVec.toNat_ofNatLt]

theorem lowerChar_toNat (c : Char) :
    (lowerChar c).toNat =
      if 65 ≤ c.toNat ∧ c.toNat ≤ 90 then c.toNat + 32 else c.toNat := by
  unfold lowerChar
  split
  · rename_i h; exact charOfNat_toNat _ (by omega)
  · rfl

theorem lowerChar_not_upper (c : Char) :
    ¬ (65 ≤ (lowerChar c).toNat ∧ (lowerChar c).toNat ≤ 90) := by
  rw [lowerChar_toNat]
  split_ifs with h <;> omega

theorem lowerChar_idem (c : Char) : lowerChar (lowerChar c) = lowerChar c := by
  have h := lowerChar_not_upper c
  generalize lowerChar c = d at h ⊢
  unfold lowerChar
  exact if_neg h

theorem lowerChar_ne_upperI (c : Char) : lowerChar c ≠ 'I' := by
  intro heq
  have ht := lowerChar_toNat c
  rw [heq] at ht
  have h73 : ('I').toNat = 73 := rfl
  rw [h73] at ht
  split_ifs at ht <;> omega

theorem replaceID_eq_self (l : List Char) (h : ∀ c ∈ l, c ≠ 'I') :
    replaceID l = l := by
  induction l with
  | nil => rfl
  | cons c rest ih =>
    cases rest with
    | nil => rfl
    | cons d rest2 =>
      rw [replaceID, if_neg (fun hc => h c (List.mem_cons_self c _) hc.1)]
      rw [ih (fun x hx => h x (List.mem_cons_of_mem c hx))]

theorem colIdx_lt {n : String} {l : List String} {i : Nat}
    (h : colIdx n l = some i) : i < l.length := by
  induction l generalizing i with
  | nil => exact Option.noConfusion h
  | cons c cs ih =>
    unfold colIdx at h
    split at h
    · cases h; simp
    · cases hcs : colIdx n cs with
      | none => rw [hcs] at h; exact Option.noConfusion h
      | some k =>
        rw [hcs] at h
        simp only [Option.map_some'] at h
        cases h
        have := ih hcs
        simp only [List.length_cons]
        omega

theorem colIdx_getD {n : String} {l : List String} {i : Nat}
    (h : colIdx n l = some i) (d : String) : l.getD i d = n := by
  induction l generalizing i with
  | nil => exact Option.noConfusion h
  | cons c cs ih =>
    unfold colIdx at h
    split at h
    · rename_i hc; cases h; simpa using hc
    · cases hcs : colIdx n cs with
      | none => rw [hcs] at h; exact Option.noConfusion h
      | some k =>
        rw [hcs] at h
        simp only [Option.map_some'] at h
        cases h
        simpa using ih hcs

theorem colIdx_append_of_some {n : String} {l l2 : List String} {i : Nat}
    (h : colIdx n l = some i) : colIdx n (l ++ l2) = some i := by
  induction l generalizing i with
  | nil => exact Option.noConfusion h
  | cons c cs ih =>
    unfold colIdx at h
    rw [List.cons_append]
    simp only [colIdx]
    split at h
    · rename_i hc; cases h; rw [if_pos hc]
    · rename_i hc
      rw [if_neg hc]
      cases hcs : colIdx n cs with
      | none => rw [hcs] at h; exact Option.noConfusion h
      | some k =>
        rw [hcs] at h
        rw [ih hcs]
        exact h

theorem colIdx_none_of_not_mem {n : String} {l : List String}
    (h : n ∉ l) : colIdx n l = none := by
  induction l with
  | nil => rfl
  | cons c cs ih =>
    simp only [colIdx]
    rw [if_neg (fun hc => h (by rw [← hc]; exact List.mem_cons_self c cs))]
    rw [ih (fun hm => h (List.mem_cons_of_mem c hm))]
    rfl

theorem colIdx_append_self {n : String} {l : List String}
    (h : colIdx n l = none) : colIdx n (l ++ [n]) = some l.length := by
  induction l with
  | nil => simp [colIdx]
  | cons c cs ih =>
    unfold colIdx at h
    rw [List.cons_append]
    simp only [colIdx]
    split at h
    · exact Option.noConfusion h
    · rename_i hc
      rw [if_neg hc]
      cases hcs : colIdx n cs with
      | none => rw [ih hcs]; simp
      | some k => rw [hcs] at h; simp at h

theorem mapE_ok_forall₂ {f : α → Except String β} {l : List α} {l' : List β}
    (h : mapE f l = .ok l') : List.Forall₂ (fun a b => f a = .ok b) l l' := by
  induction l generalizing l' with
  | nil =>
    unfold mapE at h
    cases h
    exact List.Forall₂.nil
  | cons a as ih =>
    unfold mapE at h
    split at h
    · exact Except.noConfusion h
    · rename_i b hfa
      split at h
      · exact Except.noConfusion h
      · rename_i bs hbs
        cases h
        exact List.Forall₂.cons hfa (ih hbs)

theorem mem_zipWith_of_forall₂ {R : α → β → Prop} {g : α → β → γ}
    {l1 : List α} {l2 : List β} {c : γ}
    (hf : List.Forall₂ R l1 l2) (hc : c ∈ List.zipWith g l1 l2) :
    ∃ a b, a ∈ l1 ∧ R a b ∧ c = g a b := by
  induction hf with
  | nil => simp at hc
  | cons hab htail ih =>
    rename_i a b l1' l2'
    rw [List.zipWith_cons_cons] at hc
    rcases List.mem_cons.mp hc with hh | hh
    · exact ⟨a, b, List.mem_cons_self _ _, hab, hh⟩
    · obtain ⟨a', b', ha, hr, hcc⟩ := ih hh
      exact ⟨a', b', List.mem_cons_of_mem _ ha, hr, hcc⟩

theorem mem_of_mem_maskFilter {l : List α} {m : List Bool} {x : α}
    (hx : x ∈ (l.zip m).filterMap (fun p => if p.2 then some p.1 else none)) :
    x ∈ l := by
  rw [List.mem_filterMap] at hx
  obtain ⟨⟨a, b⟩, hmem, hab⟩ := hx
  cases b with
  | true => simp only [if_pos rfl] at hab; cases hab; exact (List.of_mem_zip hmem).1
  | false => simp at hab

theorem transform_ok_elim {df df' : DataFrame} (h : transform df = .ok df') :
    ∃ dts dates pc td mask,
      getCol (renameCols df) "lpep_pickup_datetime" = .ok dts ∧
      mapE dtDate dts = .ok dates ∧
      getCol (setCol (renameCols df) "lpep_pickup_date" dates) "passenger_count" = .ok pc ∧
      getCol (setCol (renameCols df) "lpep_pickup_date" dates) "trip_distance" = .ok td ∧
      buildMask pc td = .ok mask ∧
      df' = filterRows (setCol (renameCols df) "lpep_pickup_date" dates) mask := by
  unfold transform at h
  split at h
  · exact Except.noConfusion h
  · rename_i dts h1
    split at h
    · exact Except.noConfusion h
    · rename_i dates h2
      split at h
      · exact Except.noConfusion h
      · rename_i pc h3
        split at h
        · exact Except.noConfusion h
        · rename_i td h4
          split at h
          · exact Except.noConfusion h
          · rename_i mask h5
            exact ⟨dts, dates, pc, td, mask, h1, h2, h3, h4, h5, (Except.ok.inj h).symm⟩

theorem setCol_mem_cols {df : DataFrame} {nm x : String} {vals : List Value}
    (hx : x ∈ df.cols) : x ∈ (setCol df nm vals).cols := by
  unfold setCol
  cases colIdx nm df.cols with
  | some i => exact hx
  | none => exact List.mem_append_left _ hx

theorem setCol_rows_length_le (df : DataFrame) (nm : String) (vals : List Value) :
    (setCol df nm vals).rows.length ≤ df.rows.length := by
  unfold setCol
  cases colIdx nm df.cols with
  | some i => simp [List.length_zipWith]
  | none => simp [List.length_zipWith]

theorem filterRows_rows_length_le (df : DataFrame) (m : List Bool) :
    (filterRows df m).rows.length ≤ df.rows.length := by
  unfold filterRows
  exact le_trans (List.length_filterMap_le _ _)
    (by rw [List.length_zip]; exact Nat.min_le_left _ _)

/-! Claim theorems. -/

/-- Claim C10: the column-name normalization rule (replace every
occurrence of `ID` by `_id`, then lower-case the whole name) is
idempotent: a once-normalized name is lower-case and contains no
upper-case `ID`, so a second application changes nothing. -/
theorem normalizeName_idempotent (s : String) :
    normalizeName (normalizeName s) = normalizeName s := by
  unfold normalizeName
  have hdata : (String.mk ((replaceID s.data).map lowerChar)).data
      = (replaceID s.data).map lowerChar := rfl
  rw [hdata]
  rw [replaceID_eq_self ((replaceID s.data).map lowerChar) ?hno]
  case hno =>
    intro c hc
    obtain ⟨c', _, hc'⟩ := List.mem_map.mp hc
    rw [← hc']
    exact lowerChar_ne_upperI c'
  rw [List.map_map]
  refine congrArg String.mk (List.map_congr_left ?_)
  intro a _
  exact lowerChar_idem a

/-- Claim C9: the loader's result does not depend on the positional or
keyword arguments it receives; the embedded URL list, dtype schema and
date-column list (together with the external resource contents, abstracted
by `read_csv`) fully determine the output. -/
theorem load_data_from_api_ignores_args
    (read_csv : String → List (String × Dtype) → List String → DataFrame)
    (args1 : List Value) (kwargs1 : List (String × Value))
    (args2 : List Value) (kwargs2 : List (String × Value)) :
    load_data_from_api read_csv args1 kwargs1 =
      load_data_from_api read_csv args2 kwargs2 :=
  rfl

/-- Claim C3: when the three declared resources decode to batches with
N1, N2, N3 rows, the loader's combined output has exactly N1+N2+N3 rows,
in declared source order (all rows of resource 1, then 2, then 3, each in
internal order), and its row index is contiguous from 0. -/
theorem load_concat_order
    (read_csv : String → List (String × Dtype) → List String → DataFrame)
    (args : List Value) (kwargs : List (String × Value))
    (d1 d2 d3 : DataFrame)
    (h : url_list.map (fun url => read_csv url taxi_dtypes parse_dates) = [d1, d2, d3]) :
    (load_data_from_api read_csv args kwargs).rows = d1.rows ++ d2.rows ++ d3.rows ∧
    (load_data_from_api read_csv args kwargs).rows.length =
      d1.rows.length + d2.rows.length + d3.rows.length ∧
    (load_data_from_api read_csv args kwargs).idx =
      List.range (d1.rows.length + d2.rows.length + d3.rows.length) := by
  unfold load_data_from_api concatIgnoreIndex
  rw [h]
  refine ⟨?_, ?_, ?_⟩
  · simp [List.append_assoc]
  · simp [List.length_append]; omega
  · simp only [List.foldr]
    refine congrArg List.range ?_
    omega

theorem load_concat_order_witness :
    (load_data_from_api wRead [] []).rows =
      wBatchA.rows ++ wBatchB.rows ++ wBatchC.rows ∧
    (load_data_from_api wRead [] []).rows.length =
      wBatchA.rows.length + wBatchB.rows.length + wBatchC.rows.length ∧
    (load_data_from_api wRead [] []).idx =
      List.range (wBatchA.rows.length + wBatchB.rows.length + wBatchC.rows.length) :=
  load_concat_order wRead [] [] wBatchA wBatchB wBatchC (by rfl)

/-- Claim C5: the transform performs exactly the three operations in
source order — column renaming first, then the date derivation, then the
row filter — with the derivation and the filter both addressing columns
by their post-normalization names (`stepAddDate` reads
`lpep_pickup_datetime`, `stepFilter` reads `passenger_count` and
`trip_distance`, and both run on the renamed frame). -/
theorem transform_step_order (df : DataFrame) :
    transform df = Except.bind (stepAddDate (renameCols df)) stepFilter := by
  unfold transform stepAddDate stepFilter Except.bind
  cases getCol (renameCols df) "lpep_pickup_datetime" with
  | error e => rfl
  | ok dts =>
    dsimp only
    cases mapE dtDate dts with
    | error e => rfl
    | ok dates => rfl

theorem mem_zipWith_exists {g : α → β → γ} {l1 : List α} {l2 : List β} {c : γ}
    (hc : c ∈ List.zipWith g l1 l2) : ∃ a ∈ l1, ∃ b ∈ l2, c = g a b := by
  induction l1 generalizing l2 with
  | nil => simp at hc
  | cons a as ih =>
    cases l2 with
    | nil => simp at hc
    | cons b bs =>
      rw [List.zipWith_cons_cons] at hc
      rcases List.mem_cons.mp hc with hh | hh
      · exact ⟨a, List.mem_cons_self _ _, b, List.mem_cons_self _ _, hh⟩
      · obtain ⟨a', ha, b', hb, hcc⟩ := ih hh
        exact ⟨a', List.mem_cons_of_mem _ ha, b', List.mem_cons_of_mem _ hb, hcc⟩

theorem setCol_none_eq {df : DataFrame} {nm : String} (vals : List Value)
    (h : colIdx nm df.cols = none) :
    setCol df nm vals =
      { cols := df.cols ++ [nm], idx := df.idx,
        rows := List.zipWith (fun r v => r ++ [v]) df.rows vals } := by
  unfold setCol
  rw [h]

theorem setCol_some_eq {df : DataFrame} {nm : String} {i : Nat} (vals : List Value)
    (h : colIdx nm df.cols = some i) :
    setCol df nm vals =
      { cols := df.cols, idx := df.idx,
        rows := List.zipWith (fun r v => r.set i v) df.rows vals } := by
  unfold setCol
  rw [h]

/-- Claim C2: the column-name normalization replaces every occurrence of
`ID` by `_id` and then lower-cases, so `VendorID` becomes `vendor_id` and
`PULocationID` becomes `pulocation_id` (no separator inserted); and
whenever the transform succeeds on a batch with a `VendorID` column, its
output has a `vendor_id` column. -/
theorem normalize_rename_rule :
    normalizeName "VendorID" = "vendor_id" ∧
    normalizeName "PULocationID" = "pulocation_id" ∧
    ∀ df df', transform df = .ok df' → "VendorID" ∈ df.cols → "vendor_id" ∈ df'.cols := by
  refine ⟨rfl, rfl, ?_⟩
  intro df df' h hmem
  obtain ⟨dts, dates, pc, td, mask, h1, h2, h3, h4, h5, hdf⟩ := transform_ok_elim h
  subst hdf
  show "vendor_id" ∈ (setCol (renameCols df) "lpep_pickup_date" dates).cols
  apply setCol_mem_cols
  show "vendor_id" ∈ df.cols.map normalizeName
  exact List.mem_map.mpr ⟨"VendorID", hmem, rfl⟩

theorem normalize_rename_rule_witness : "vendor_id" ∈ c2out.cols :=
  normalize_rename_rule.2.2 c2df c2out rfl (by decide)

/-- Claim C7: whenever the transform succeeds, its output has at most as
many rows as its input. -/
theorem transform_row_count_le (df df' : DataFrame)
    (h : transform df = .ok df') : df'.rows.length ≤ df.rows.length := by
  obtain ⟨dts, dates, pc, td, mask, h1, h2, h3, h4, h5, hdf⟩ := transform_ok_elim h
  subst hdf
  calc (filterRows (setCol (renameCols df) "lpep_pickup_date" dates) mask).rows.length
      ≤ (setCol (renameCols df) "lpep_pickup_date" dates).rows.length :=
        filterRows_rows_length_le _ _
    _ ≤ (renameCols df).rows.length := setCol_rows_length_le _ _ _
    _ = df.rows.length := rfl

theorem transform_row_count_le_witness : c7out.rows.length ≤ c7df.rows.length :=
  transform_row_count_le c7df c7out rfl

/-- Claim C1, evaluated on the code as written: `c1df`'s single row has
`passenger_count = 3 > 0` and `trip_distance = 1.2 > 0`, so the claimed
filter would retain it, but the source expression
`(data['passenger_count'] >0) & (data['trip_distance']) >0` parses as
`((passenger_count > 0) & trip_distance) > 0` and `&` on the float
`trip_distance` column raises a `TypeError` instead of producing any
output batch. -/
theorem transform_filter_raises :
    (0 < (3 : Int) ∧ 0 < (6/5 : ℚ)) ∧
    transform c1df = .error "TypeError: unsupported operand type for &: float" :=
  ⟨⟨by norm_num, by norm_num⟩, rfl⟩

/-- Claim C8, evaluated on the code as written: `c8df` contains all three
required columns (`passenger_count`, `trip_distance`,
`lpep_pickup_datetime`) with well-typed cells, yet the transform does not
succeed: the filter's `&` on the float `trip_distance` column raises. -/
theorem transform_presence_not_sufficient :
    ("passenger_count" ∈ c8df.cols ∧ "trip_distance" ∈ c8df.cols ∧
      "lpep_pickup_datetime" ∈ c8df.cols) ∧
    transform c8df = .error "TypeError: unsupported operand type for &: float" :=
  ⟨⟨by decide, by decide, by decide⟩, rfl⟩

/-- Claim C6 counterexample: on `c6df`, whose (already normalized) schema
contains `lpep_pickup_date`, the transform succeeds but overwrites that
column in place, so the output does not have one column more than the
input. -/
theorem transform_frame_cex :
    transform c6df = .ok c6out ∧
    c6out.cols = c6df.cols.map normalizeName ∧
    c6out.cols ≠ c6df.cols.map normalizeName ++ ["lpep_pickup_date"] :=
  ⟨rfl, rfl, by decide⟩

/-- Claim C6 (amended): provided the normalized input schema does not
already contain `lpep_pickup_date`, the output of a successful transform
has exactly the normalized input columns plus the one appended
`lpep_pickup_date` column, and every retained row is an input row with
one derived cell appended (all pre-existing column values unchanged);
only the row set may shrink. -/
theorem transform_frame (df df' : DataFrame)
    (hnew : "lpep_pickup_date" ∉ df.cols.map normalizeName)
    (h : transform df = .ok df') :
    df'.cols = df.cols.map normalizeName ++ ["lpep_pickup_date"] ∧
    ∀ r' ∈ df'.rows, ∃ r ∈ df.rows, ∃ v, r' = r ++ [v] := by
  obtain ⟨dts, dates, pc, td, mask, h1, h2, h3, h4, h5, hdf⟩ := transform_ok_elim h
  subst hdf
  have hnone : colIdx "lpep_pickup_date" (renameCols df).cols = none :=
    colIdx_none_of_not_mem hnew
  constructor
  · show (setCol (renameCols df) "lpep_pickup_date" dates).cols = _
    rw [setCol_none_eq dates hnone]
    rfl
  · intro r' hr'
    have hr2 : r' ∈ (setCol (renameCols df) "lpep_pickup_date" dates).rows :=
      mem_of_mem_maskFilter hr'
    rw [setCol_none_eq dates hnone] at hr2
    obtain ⟨r, hrmem, v, _, heq⟩ := mem_zipWith_exists hr2
    exact ⟨r, hrmem, v, heq⟩

theorem transform_frame_witness :
    c6wout.cols = c6wdf.cols.map normalizeName ++ ["lpep_pickup_date"] ∧
    ∀ r' ∈ c6wout.rows, ∃ r ∈ c6wdf.rows, ∃ v, r' = r ++ [v] :=
  transform_frame c6wdf c6wout (by decide) rfl

/-- Claim C4: for every row of a successful transform's output (on a
rectangular input batch), the derived `lpep_pickup_date` cell is exactly
what the source's `.dt.date` extraction yields on that row's
`lpep_pickup_datetime` cell — the calendar-date component. -/
theorem transform_date_component (df df' : DataFrame) (hrect : df.Rect)
    (h : transform df = .ok df') :
    ∃ i j, colIdx "lpep_pickup_datetime" df'.cols = some i ∧
      colIdx "lpep_pickup_date" df'.cols = some j ∧
      ∀ r ∈ df'.rows, dtDate (r.getD i .na) = .ok (r.getD j .na) := by
  obtain ⟨dts, dates, pc, td, mask, h1, h2, h3, h4, h5, hdf⟩ := transform_ok_elim h
  subst hdf
  unfold getCol at h1
  cases hi : colIdx "lpep_pickup_datetime" (renameCols df).cols with
  | none => rw [hi] at h1; exact Except.noConfusion h1
  | some i =>
    rw [hi] at h1
    have hdts : dts = (renameCols df).rows.map (fun r => r.getD i .na) :=
      (Except.ok.inj h1).symm
    subst hdts
    have hf := mapE_ok_forall₂ h2
    rw [List.forall₂_map_left_iff] at hf
    have hilt : i < (renameCols df).cols.length := colIdx_lt hi
    have hcl : (renameCols df).cols.length = df.cols.length := by
      simp [renameCols]
    cases hj : colIdx "lpep_pickup_date" (renameCols df).cols with
    | none =>
      refine ⟨i, (renameCols df).cols.length, ?_, ?_, ?_⟩
      · show colIdx "lpep_pickup_datetime"
          (setCol (renameCols df) "lpep_pickup_date" dates).cols = some i
        rw [setCol_none_eq dates hj]
        exact colIdx_append_of_some hi
      · show colIdx "lpep_pickup_date"
          (setCol (renameCols df) "lpep_pickup_date" dates).cols = some _
        rw [setCol_none_eq dates hj]
        exact colIdx_append_self hj
      · intro r hr
        have hr2 : r ∈ (setCol (renameCols df) "lpep_pickup_date" dates).rows :=
          mem_of_mem_maskFilter hr
        rw [setCol_none_eq dates hj] at hr2
        obtain ⟨row, dval, hrow, hrel, heq⟩ := mem_zipWith_of_forall₂ hf hr2
        subst heq
        have hrl : row.length = df.cols.length := hrect row hrow
        rw [List.getD_append _ _ _ _ (by omega : i < row.length)]
        rw [List.getD_append_right _ _ _ _ (by omega : row.length ≤ (renameCols df).cols.length)]
        have hz : (renameCols df).cols.length - row.length = 0 := by omega
        rw [hz]
        exact hrel
    | some j =>
      refine ⟨i, j, ?_, ?_, ?_⟩
      · show colIdx "lpep_pickup_datetime"
          (setCol (renameCols df) "lpep_pickup_date" dates).cols = some i
        rw [setCol_some_eq dates hj]
        exact hi
      · show colIdx "lpep_pickup_date"
          (setCol (renameCols df) "lpep_pickup_date" dates).cols = some j
        rw [setCol_some_eq dates hj]
        exact hj
      · intro r hr
        have hij : i ≠ j := by
          intro hEq
          have hgi := colIdx_getD hi ""
          have hgj := colIdx_getD hj ""
          rw [hEq] at hgi
          exact absurd (hgi.symm.trans hgj) (by decide)
        have hjlt : j < (renameCols df).cols.length := colIdx_lt hj
        have hr2 : r ∈ (setCol (renameCols df) "lpep_pickup_date" dates).rows :=
          mem_of_mem_maskFilter hr
        rw [setCol_some_eq dates hj] at hr2
        obtain ⟨row, dval, hrow, hrel, heq⟩ := mem_zipWith_of_forall₂ hf hr2
        subst heq
        have hrl : row.length = df.cols.length := hrect row hrow
        rw [List.getD_eq_getElem?_getD, List.getElem?_set_ne (Ne.symm hij),
          ← List.getD_eq_getElem?_getD]
        rw [List.getD_eq_getElem?_getD (row.set j dval),
          List.getElem?_set_self (by omega : j < row.length)]
        exact hrel

theorem transform_date_component_witness :
    ∃ i j, colIdx "lpep_pickup_datetime" c4out.cols = some i ∧
      colIdx "lpep_pickup_date" c4out.cols = some j ∧
      ∀ r ∈ c4out.rows, dtDate (r.getD i .na) = .ok (r.getD j .na) :=
  transform_date_component c4df c4out (by decide) rfl
